import Mathlib

/-!
Verification of `mask_ai.py` (face-detect): a shallow embedding of its
geometry, topology, materialization, rendering and orchestration logic,
with theorems settling the specification's claims about it.
-/

namespace MaskAi

/--
Python's built-in `round` applied to the exact rational `n / d` (`d > 0`):
round to the nearest integer, ties to even.  The source only ever rounds
`.50 * width` (= `width / 2`), `.75 * length` (= `3 * length / 4`) and
`.50 * length`, all of which are exactly representable as double-precision
floats for pixel-sized operands, so Python's float `round` coincides with
this exact rational rounding.
-/
def roundHalfEven (n d : ℤ) : ℤ :=
  if 2 * (n % d) < d then n / d
  else if d < 2 * (n % d) then n / d + 1
  else if (n / d) % 2 = 0 then n / d else n / d + 1

/--
Embedding of `edit_boundaries(boundaries, img_shape)` (src/mask_ai.py
lines 124-146).  `boundaries` is `(left, top, right, bottom)`;
`img_shape` is `(row_count, col_count)` (the channel count, unused by the
source, is dropped).  `length = bottom - top`, `width = right - left`;
the four edited coordinates are then clamped with `max _ 0` / `min`
against the shape, exactly as in the source.
-/
def edit_boundaries (boundaries : ℤ × ℤ × ℤ × ℤ) (img_shape : ℤ × ℤ) :
    ℤ × ℤ × ℤ × ℤ :=
  (max (boundaries.1 - roundHalfEven (boundaries.2.2.1 - boundaries.1) 2) 0,
   max (boundaries.2.1 - roundHalfEven (3 * (boundaries.2.2.2 - boundaries.2.1)) 4) 0,
   min (boundaries.2.2.1 + roundHalfEven (boundaries.2.2.1 - boundaries.1) 2) img_shape.2,
   min (boundaries.2.2.2 + roundHalfEven (boundaries.2.2.2 - boundaries.2.1) 2) img_shape.1)

/--
The specification's `expand` formula, written from the spec's words
(section 4.1): `width = right - left`, `height = bottom - top`,
`newLeft = max(left - round(0.50*width), 0)`,
`newTop = max(top - round(0.75*height), 0)`,
`newRight = min(right + round(0.50*width), colCount)`,
`newBottom = min(bottom + round(0.50*height), rowCount)`.
-/
def expandSpec (box : ℤ × ℤ × ℤ × ℤ) (shape : ℤ × ℤ) : ℤ × ℤ × ℤ × ℤ :=
  (max (box.1 - roundHalfEven (box.2.2.1 - box.1) 2) 0,
   max (box.2.1 - roundHalfEven (3 * (box.2.2.2 - box.2.1)) 4) 0,
   min (box.2.2.1 + roundHalfEven (box.2.2.1 - box.1) 2) shape.2,
   min (box.2.2.2 + roundHalfEven (box.2.2.2 - box.2.1) 2) shape.1)

theorem roundHalfEven_nonneg {n d : ℤ} (hn : 0 ≤ n) (hd : 0 < d) :
    0 ≤ roundHalfEven n d := by
  have hq : 0 ≤ n / d := Int.ediv_nonneg hn (le_of_lt hd)
  unfold roundHalfEven
  split_ifs <;> omega

example : roundHalfEven 1 2 = 0 := by decide
example : roundHalfEven 3 2 = 2 := by decide
example : roundHalfEven 5 2 = 2 := by decide
example : roundHalfEven (-3) 2 = -2 := by decide
example : roundHalfEven 6 4 = 2 := by decide
example : roundHalfEven 75 4 = 19 := by decide
example : edit_boundaries (50, 50, 150, 150) (200, 200) = (0, 0, 200, 200) := by decide

/-- C1: for every bounding box with `left < right` and `top < bottom` and
every image shape, `edit_boundaries` returns exactly the clamped expansion
the spec's formula describes. -/
theorem edit_boundaries_eq_expandSpec (l t r b rows cols : ℤ)
    (_hlr : l < r) (_htb : t < b) :
    edit_boundaries (l, t, r, b) (rows, cols) = expandSpec (l, t, r, b) (rows, cols) := rfl

theorem edit_boundaries_eq_expandSpec_witness :
    (10 : ℤ) < 30 ∧ (20 : ℤ) < 50 ∧
      edit_boundaries (10, 20, 30, 50) (100, 100) = expandSpec (10, 20, 30, 50) (100, 100) :=
  ⟨by decide, by decide, edit_boundaries_eq_expandSpec 10 20 30 50 100 100 (by decide) (by decide)⟩

/-- C7: for a box fully inside the image bounds, the expanded-and-clamped
box is still inside the bounds and non-degenerate. -/
theorem edit_boundaries_preserves_bounds (l t r b rows cols : ℤ)
    (h0l : 0 ≤ l) (hlr : l < r) (hrc : r ≤ cols)
    (h0t : 0 ≤ t) (htb : t < b) (hbr : b ≤ rows) :
    0 ≤ (edit_boundaries (l, t, r, b) (rows, cols)).1 ∧
    (edit_boundaries (l, t, r, b) (rows, cols)).1 < (edit_boundaries (l, t, r, b) (rows, cols)).2.2.1 ∧
    (edit_boundaries (l, t, r, b) (rows, cols)).2.2.1 ≤ cols ∧
    0 ≤ (edit_boundaries (l, t, r, b) (rows, cols)).2.1 ∧
    (edit_boundaries (l, t, r, b) (rows, cols)).2.1 < (edit_boundaries (l, t, r, b) (rows, cols)).2.2.2 ∧
    (edit_boundaries (l, t, r, b) (rows, cols)).2.2.2 ≤ rows := by
  have hw : 0 ≤ roundHalfEven (r - l) 2 := roundHalfEven_nonneg (by omega) (by omega)
  have hv : 0 ≤ roundHalfEven (3 * (b - t)) 4 := roundHalfEven_nonneg (by omega) (by omega)
  have hb : 0 ≤ roundHalfEven (b - t) 2 := roundHalfEven_nonneg (by omega) (by omega)
  simp only [edit_boundaries]
  refine ⟨?_, ?_, ?_, ?_, ?_, ?_⟩ <;> omega

theorem edit_boundaries_preserves_bounds_witness :
    (0 : ℤ) ≤ 50 ∧ (50 : ℤ) < 150 ∧ (150 : ℤ) ≤ 200 ∧
      (0 ≤ (edit_boundaries (50, 50, 150, 150) (200, 200)).1 ∧
       (edit_boundaries (50, 50, 150, 150) (200, 200)).1 <
         (edit_boundaries (50, 50, 150, 150) (200, 200)).2.2.1 ∧
       (edit_boundaries (50, 50, 150, 150) (200, 200)).2.2.1 ≤ 200 ∧
       0 ≤ (edit_boundaries (50, 50, 150, 150) (200, 200)).2.1 ∧
       (edit_boundaries (50, 50, 150, 150) (200, 200)).2.1 <
         (edit_boundaries (50, 50, 150, 150) (200, 200)).2.2.2 ∧
       (edit_boundaries (50, 50, 150, 150) (200, 200)).2.2.2 ≤ 200) :=
  ⟨by decide, by decide, by decide,
    edit_boundaries_preserves_bounds 50 50 150 150 200 200
      (by decide) (by decide) (by decide) (by decide) (by decide) (by decide)⟩

/-- C9: the expansion amounts of `edit_boundaries` round half to even:
when the width `r - l` is odd (so `0.50 * width` is an exact half-integer)
the horizontal expansion is the nearest even integer, and when the height
`b - t` is `2 mod 4` (so `0.75 * height` is an exact half-integer) the top
expansion is the nearest even integer. -/
theorem expansion_rounds_half_to_even (l r t b : ℤ)
    (hw : (r - l) % 2 = 1) (hh : (b - t) % 4 = 2) :
    roundHalfEven (r - l) 2 % 2 = 0 ∧
    (2 * roundHalfEven (r - l) 2 - (r - l) = 1 ∨
     2 * roundHalfEven (r - l) 2 - (r - l) = -1) ∧
    roundHalfEven (3 * (b - t)) 4 % 2 = 0 ∧
    (4 * roundHalfEven (3 * (b - t)) 4 - 3 * (b - t) = 2 ∨
     4 * roundHalfEven (3 * (b - t)) 4 - 3 * (b - t) = -2) := by
  unfold roundHalfEven
  split_ifs <;> omega

theorem expansion_rounds_half_to_even_witness :
    ((3 : ℤ) - 0) % 2 = 1 ∧ ((2 : ℤ) - 0) % 4 = 2 ∧
      (roundHalfEven (3 - 0) 2 % 2 = 0 ∧
       (2 * roundHalfEven (3 - 0) 2 - (3 - 0) = 1 ∨
        2 * roundHalfEven (3 - 0) 2 - (3 - 0) = -1) ∧
       roundHalfEven (3 * (2 - 0)) 4 % 2 = 0 ∧
       (4 * roundHalfEven (3 * (2 - 0)) 4 - 3 * (2 - 0) = 2 ∨
        4 * roundHalfEven (3 * (2 - 0)) 4 - 3 * (2 - 0) = -2)) :=
  ⟨by decide, by decide, expansion_rounds_half_to_even 0 3 0 2 (by decide) (by decide)⟩

/-- C5 counterexample: on the pathological zero-size box `(5,5,5,5)` in a
`10 × 10` image, `edit_boundaries` returns the degenerate box `(5,5,5,5)`
(with `newRight = newLeft` and `newBottom = newTop`) instead of failing
with any error. -/
theorem edit_boundaries_returns_degenerate :
    edit_boundaries (5, 5, 5, 5) (10, 10) = (5, 5, 5, 5) := by decide

/-- C5 amended: `edit_boundaries` performs no degeneracy check — on any
zero-size box inside the image it returns the same degenerate box, and the
caller goes on to crop with it. -/
theorem edit_boundaries_degenerate_no_error (l t rows cols : ℤ)
    (h0l : 0 ≤ l) (hlc : l ≤ cols) (h0t : 0 ≤ t) (htr : t ≤ rows) :
    edit_boundaries (l, t, l, t) (rows, cols) = (l, t, l, t) := by
  have h2 : roundHalfEven 0 2 = 0 := by decide
  have h4 : roundHalfEven 0 4 = 0 := by decide
  simp only [edit_boundaries, sub_self, mul_zero, h2, h4]
  simp only [Prod.mk.injEq]
  refine ⟨?_, ?_, ?_, ?_⟩ <;> omega

theorem edit_boundaries_degenerate_no_error_witness :
    (0 : ℤ) ≤ 5 ∧ (5 : ℤ) ≤ 10 ∧
      edit_boundaries (5, 5, 5, 5) (10, 10) = ((5 : ℤ), (5 : ℤ), (5 : ℤ), (5 : ℤ)) :=
  ⟨by decide, by decide,
    edit_boundaries_degenerate_no_error 5 5 10 10 (by decide) (by decide) (by decide) (by decide)⟩

/--
Embedding of the `face_polyline_segments` dictionary (src/mask_ai.py
lines 21-45): the two topology registries, keyed by `"full"` and
`"partial"`, each an ordered list of segment index lists, copied
index-for-index from the source (the `range` comprehensions of the
source are written out).  Any other key is absent from the dictionary;
the embedding returns `[]` for it (the orchestrator only ever uses the
two present keys).
-/
def face_polyline_segments (key : String) : List (List ℕ) :=
  if key = "full" then
    [[27, 22, 21, 20, 19, 18, 17, 0, 1, 2, 3, 4, 5, 6, 7, 8, 9, 10, 11, 12, 13, 14, 15, 16, 26, 25, 24, 23, 22],
     [0, 36, 17, 37, 18, 38, 20], [38, 19],
     [21, 38, 37, 36, 41, 40, 39, 38],
     [39, 27, 31, 40, 1, 31, 3, 48, 5, 58, 59, 48, 31, 39],
     [21, 27, 28, 29, 30, 33, 32, 31, 51, 50, 49, 48], [31, 30, 35],
     [60, 61, 62, 63, 64, 65, 66, 67, 60],
     [8, 58, 57, 56, 8],
     [56, 55, 54, 53, 52, 51],
     [51, 33, 34, 35, 51], [35, 54],
     [56, 11, 54, 13, 35, 15, 47, 35, 42, 27, 35],
     [42, 47, 46, 45, 44, 43, 42],
     [16, 45, 26, 44, 25, 43, 24], [22, 43, 23]]
  else if key = "partial" then
    [[0, 1, 2, 3, 4, 5, 6, 7, 8, 9, 10, 11, 12, 13, 14, 15, 16],
     [8, 48, 31, 30, 35, 54, 8],
     [60, 61, 62, 63, 64, 65, 66, 67], [67, 60],
     [17, 18, 19, 20, 21, 22, 23, 24, 25, 26], [0, 17], [16, 26],
     [31, 39, 21], [35, 42, 22]]
  else []

/--
Embedding of `define_polylines(landmarks, face_polyline_segment)`
(src/mask_ai.py lines 88-107).  `coors` is the list
`[(p.x, p.y) for p in landmarks.parts()]`; for each segment the source
appends `coors[point]` for each point index — a Python `IndexError`
(modelled as `none`) if an index is out of range — and the
`np.reshape(segment_coors, (-1, 2))` keeps the point data and order
unchanged, so it is dropped.
-/
def define_polylines (coors : List (ℤ × ℤ)) (face_polyline_segment : List (List ℕ)) :
    Option (List (List (ℤ × ℤ))) :=
  face_polyline_segment.mapM (fun segment => segment.mapM (fun point => coors[point]?))

theorem mapM_get_eq_map (coors : List (ℤ × ℤ)) :
    ∀ seg : List ℕ, (∀ i ∈ seg, i < coors.length) →
      seg.mapM (fun point => coors[point]?) =
        some (seg.map (fun point => coors.getD point (0, 0)))
  | [], _ => rfl
  | i :: is, h => by
      have hi : i < coors.length := h i (by simp)
      have hrest := mapM_get_eq_map coors is (fun j hj => h j (by simp [hj]))
      have hget : coors[i]? = some (coors.getD i (0, 0)) := by
        rw [List.getD_eq_getElem coors (0, 0) hi]
        exact List.getElem?_eq_getElem hi
      rw [List.mapM_cons]
      show (coors[i]?.bind fun x =>
        (is.mapM (fun point => coors[point]?)).bind fun xs => some (x :: xs)) = _
      rw [hget, hrest]
      rfl

theorem define_polylines_eq (coors : List (ℤ × ℤ)) :
    ∀ segs : List (List ℕ), (∀ s ∈ segs, ∀ i ∈ s, i < coors.length) →
      define_polylines coors segs =
        some (segs.map (fun s => s.map (fun i => coors.getD i (0, 0))))
  | [], _ => rfl
  | s :: ss, h => by
      have hs := mapM_get_eq_map coors s (h s (by simp))
      have hrest := define_polylines_eq coors ss (fun s2 hs2 => h s2 (by simp [hs2]))
      simp only [define_polylines] at hrest ⊢
      rw [List.mapM_cons]
      show ((s.mapM (fun point => coors[point]?)).bind fun x =>
        (ss.mapM (fun segment : List ℕ => segment.mapM (fun point => coors[point]?))).bind
          fun xs => some (x :: xs)) = _
      rw [hs, hrest]
      rfl

/-- C6: on a 68-point landmark list and segment definitions whose indices
all lie below 68, `define_polylines` returns one polyline per segment in
the same order, each polyline holding exactly the landmark at each index
of its definition, in the definition's order — no deduplication, no
reordering. -/
theorem define_polylines_materializes_exactly (coors : List (ℤ × ℤ))
    (segs : List (List ℕ)) (h68 : coors.length = 68)
    (hidx : ∀ s ∈ segs, ∀ i ∈ s, i < 68) :
    define_polylines coors segs =
      some (segs.map (fun s => s.map (fun i => coors.getD i (0, 0)))) :=
  define_polylines_eq coors segs (fun s hs i hi => by rw [h68]; exact hidx s hs i hi)

theorem define_polylines_materializes_exactly_witness :
    (List.replicate 68 ((0 : ℤ), (0 : ℤ))).length = 68 ∧
    (∀ s ∈ [[0, 67], [5]], ∀ i ∈ s, i < 68) ∧
    define_polylines (List.replicate 68 ((0 : ℤ), (0 : ℤ))) [[0, 67], [5]] =
      some ([[0, 67], [5]].map
        (fun s => s.map (fun i => (List.replicate 68 ((0 : ℤ), (0 : ℤ))).getD i (0, 0)))) :=
  ⟨by decide, by decide,
    define_polylines_materializes_exactly _ _ (by decide) (by decide)⟩

/-- C2 counterexample: the `"full"` topology registry does not hold 14
segment definitions. -/
theorem full_segments_count_ne_14 :
    ¬ ((face_polyline_segments ("full")).length = 14) := by decide

/-- C2 amended: `face_polyline_segments` holds exactly 16 segment
definitions under `"full"` and exactly 9 under `"partial"`, and on any
valid 68-point landmark list materialization yields exactly 16
(respectively 9) polylines. -/
theorem segment_and_polyline_counts :
    (face_polyline_segments ("full")).length = 16 ∧
    (face_polyline_segments ("partial")).length = 9 ∧
    ∀ coors : List (ℤ × ℤ), coors.length = 68 →
      (∃ pf, define_polylines coors (face_polyline_segments ("full")) = some pf ∧
        pf.length = 16) ∧
      (∃ pp, define_polylines coors (face_polyline_segments ("partial")) = some pp ∧
        pp.length = 9) := by
  have hfull : ∀ s ∈ face_polyline_segments ("full"), ∀ i ∈ s, i < 68 := by decide
  have hpart : ∀ s ∈ face_polyline_segments ("partial"), ∀ i ∈ s, i < 68 := by decide
  refine ⟨by decide, by decide, fun coors h68 =>
    ⟨⟨_, define_polylines_eq coors _ (fun s hs i hi => by rw [h68]; exact hfull s hs i hi), ?_⟩,
     ⟨_, define_polylines_eq coors _ (fun s hs i hi => by rw [h68]; exact hpart s hs i hi), ?_⟩⟩⟩
  · rw [List.length_map]; decide
  · rw [List.length_map]; decide

theorem segment_and_polyline_counts_witness :
    (List.replicate 68 ((0 : ℤ), (0 : ℤ))).length = 68 ∧
    ((∃ pf, define_polylines (List.replicate 68 ((0 : ℤ), (0 : ℤ)))
        (face_polyline_segments ("full")) = some pf ∧ pf.length = 16) ∧
     (∃ pp, define_polylines (List.replicate 68 ((0 : ℤ), (0 : ℤ)))
        (face_polyline_segments ("partial")) = some pp ∧ pp.length = 9)) :=
  ⟨by decide, segment_and_polyline_counts.2.2 _ (by decide)⟩

/-- The constant color table `colors_bgr` (src/mask_ai.py line 47). -/
def colors_bgr : List (ℕ × ℕ × ℕ) := [(255, 0, 255), (0, 255, 255), (255, 0, 0)]

/-- The constant `line_thickness` (src/mask_ai.py line 49). -/
def line_thickness : ℕ := 3

/-- The constant `dot_thickness` (src/mask_ai.py line 50). -/
def dot_thickness : ℕ := 15

/--
Embedding of `draw_landmarks(face_img, landmarks, colors, thickness)`
(src/mask_ai.py lines 53-69).  `circle` stands for the external
`cv2.circle` primitive, which draws into the buffer it is given and is
called as `cv2.circle(face_img, coor, 1, colors, thickness)` for each
landmark coordinate.  Buffers are modelled by explicit state passing: the
result pair is (the state of the caller's `face_img` buffer after the
call, the returned image).  The source loops `cv2.circle(face_img, ...)`
over the landmark coordinates and returns `face_img` itself.
-/
def draw_landmarks {Img Pt Color : Type} (circle : Img → Pt → ℕ → Color → ℕ → Img)
    (face_img : Img) (landmark_parts : List Pt) (colors : Color) (thickness : ℕ) :
    Img × Img :=
  let face_img_drawn :=
    landmark_parts.foldl (fun acc coor => circle acc coor 1 colors thickness) face_img
  (face_img_drawn, face_img_drawn)

/--
Embedding of `draw_polylines(face_img, polylines, colors, thickness)`
(src/mask_ai.py lines 72-85).  `polylinesPrim` stands for the external
`cv2.polylines` primitive (its `Bool` argument is `isClosed`; the
constant `cv2.LINE_AA` line-type argument is dropped), which draws into
the buffer it is given and returns it.  The result pair is (the state of
the caller's `face_img` buffer after the call, the returned image): the
source calls `cv2.polylines(face_img, polylines, False, colors,
thickness, cv2.LINE_AA)` and returns its result.
-/
def draw_polylines {Img Poly Color : Type}
    (polylinesPrim : Img → List Poly → Bool → Color → ℕ → Img)
    (face_img : Img) (polylines : List Poly) (colors : Color) (thickness : ℕ) :
    Img × Img :=
  let face_img_lined := polylinesPrim face_img polylines false colors thickness
  (face_img_lined, face_img_lined)

/-- C3 counterexample: with a drawing primitive that changes the buffer it
draws into (as `cv2.circle` and `cv2.polylines` do), the buffer passed to
`draw_landmarks` / `draw_polylines` is changed after the call — the
functions do not operate on a copy. -/
theorem draw_funcs_do_not_preserve_input :
    (draw_landmarks (fun (im : ℕ) (_ : ℤ × ℤ) (_ : ℕ) (_ : ℕ) (_ : ℕ) => im + 1)
      0 [(0, 0)] 0 1).1 ≠ 0 ∧
    (draw_polylines (fun (im : ℕ) (_ : List (ℤ × ℤ)) (_ : Bool) (_ : ℕ) (_ : ℕ) => im + 1)
      0 [(0, 0)] 0 1).1 ≠ 0 := by decide

/-- C3 amended: `draw_landmarks` and `draw_polylines` draw directly into
the buffer they are given — after the call the caller's buffer holds the
drawn image, which is also the returned image; the orchestrator avoids
accumulating overlays by passing `copy.copy(face_img)` at each call site,
not because the functions copy. -/
theorem draw_funcs_mutate_in_place {Img Pt Poly Color : Type}
    (circle : Img → Pt → ℕ → Color → ℕ → Img)
    (plPrim : Img → List Poly → Bool → Color → ℕ → Img)
    (face_img : Img) (parts : List Pt) (polylines : List Poly)
    (colors : Color) (t1 t2 : ℕ) :
    draw_landmarks circle face_img parts colors t1 =
      (parts.foldl (fun acc coor => circle acc coor 1 colors t1) face_img,
       parts.foldl (fun acc coor => circle acc coor 1 colors t1) face_img) ∧
    draw_polylines plPrim face_img polylines colors t2 =
      (plPrim face_img polylines false colors t2,
       plPrim face_img polylines false colors t2) :=
  ⟨rfl, rfl⟩

/-- The only failure in scope for the orchestrator's inner loop: the
Python `IndexError` raised by `faces_detect(face_img)[0]` when the
second-pass detection result is empty.  `main` installs no exception
handler, so it propagates. -/
inductive PyError where
  | indexError
deriving DecidableEq

/-- Embedding of src/mask_ai.py lines 206-207: `face_rect_edit =
faces_detect(face_img)` followed by `get_landmarks(face_img,
face_rect_edit[0])`.  `detect` and `predict` stand for the external dlib
face detector and landmark predictor; `face_rect_edit[0]` on an empty
detection result raises `IndexError` (modelled as `Except.error`),
otherwise exactly the first rectangle is passed to the predictor. -/
def second_pass {Img Rect Lm : Type} (detect : Img → List Rect)
    (predict : Img → Rect → Lm) (face_img : Img) : Except PyError Lm :=
  match detect face_img with
  | [] => Except.error PyError.indexError
  | r :: _ => Except.ok (predict face_img r)

/-- The orchestrator's loop over its per-(face, color, topology) units
(src/mask_ai.py lines 198-217), restricted to the second-pass step, the
one step in scope that can fail.  `main` wraps no unit in `try`/`except`,
so the loop is a monadic map in `Except`: the first raised error aborts
all remaining units. -/
def process_batch {Img Rect Lm : Type} (detect : Img → List Rect)
    (predict : Img → Rect → Lm) (units : List Img) : Except PyError (List Lm) :=
  units.mapM (second_pass detect predict)

theorem mapM_error_of_mem {α β : Type} (f : α → Except PyError β) :
    ∀ (l : List α) (u : α), u ∈ l → f u = Except.error PyError.indexError →
      l.mapM f = Except.error PyError.indexError
  | [], u, hu, _ => absurd hu (List.not_mem_nil u)
  | v :: vs, u, hu, hd => by
      rcases List.mem_cons.mp hu with rfl | hmem
      · rw [List.mapM_cons, hd]; rfl
      · have ih := mapM_error_of_mem f vs u hmem hd
        rw [List.mapM_cons]
        cases hfv : f v with
        | error e => cases e; rfl
        | ok x =>
            show ((vs.mapM f).bind fun b => pure (x :: b)) =
              Except.error PyError.indexError
            rw [ih]
            rfl

/-- C4 counterexample: a batch of two crops whose first crop yields zero
faces on the second pass aborts with the uncaught index error — the
second unit is never processed — while the second unit alone succeeds. -/
theorem second_pass_empty_aborts_concrete :
    process_batch (fun (i : ℕ) => if i = 0 then ([] : List ℕ) else [7])
      (fun i r => i + r) [0, 1] = Except.error PyError.indexError ∧
    process_batch (fun (i : ℕ) => if i = 0 then ([] : List ℕ) else [7])
      (fun i r => i + r) [1] = Except.ok [8] :=
  ⟨rfl, rfl⟩

/-- C4 amended: when the second-pass detection returns zero faces for any
unit of the batch, the resulting index error propagates uncaught and the
whole batch run fails — no skipping, no continuation with the remaining
units. -/
theorem second_pass_empty_aborts_batch {Img Rect Lm : Type}
    (detect : Img → List Rect) (predict : Img → Rect → Lm)
    (units : List Img) (u : Img) (hu : u ∈ units) (hd : detect u = []) :
    process_batch detect predict units = Except.error PyError.indexError :=
  mapM_error_of_mem _ units u hu (by simp only [second_pass, hd])

theorem second_pass_empty_aborts_batch_witness :
    (0 : ℕ) ∈ [0, 1] ∧
    (fun (i : ℕ) => if i = 0 then ([] : List ℕ) else [9]) 0 = [] ∧
    process_batch (fun (i : ℕ) => if i = 0 then ([] : List ℕ) else [9])
      (fun i r => i + r) [0, 1] = Except.error PyError.indexError :=
  ⟨by decide, by decide,
    second_pass_empty_aborts_batch _ _ [0, 1] 0 (by decide) (by decide)⟩

/-- C10: whenever the second-pass detection on a crop returns one or more
rectangles, exactly the first rectangle is passed to the landmark
predictor; any further rectangles contribute nothing. -/
theorem second_pass_uses_first_rect {Img Rect Lm : Type}
    (detect : Img → List Rect) (predict : Img → Rect → Lm) (face_img : Img)
    (r : Rect) (rest : List Rect) (hd : detect face_img = r :: rest) :
    second_pass detect predict face_img = Except.ok (predict face_img r) := by
  simp only [second_pass, hd]

theorem second_pass_uses_first_rect_witness :
    (fun (_ : ℕ) => [3, 4]) 5 = 3 :: [4] ∧
    second_pass (fun (_ : ℕ) => [3, 4]) (fun i r => 100 * i + r) 5 =
      Except.ok 503 :=
  ⟨rfl, second_pass_uses_first_rect _ _ 5 3 [4] rfl⟩

/-- Python's `str.endswith` with one literal: true iff `suf` is a suffix
of `s`, compared character for character. -/
def endswith_one (s suf : List Char) : Bool :=
  decide (suf.length ≤ s.length) && (s.drop (s.length - suf.length) == suf)

/-- Embedding of the filename filter of `main` (src/mask_ai.py lines
192-193): `filename.endswith(('jpg', 'JPG'))` — true iff the name ends
with exactly `jpg` or exactly `JPG`. -/
def selects_file (filename : List Char) : Bool :=
  endswith_one filename ['j', 'p', 'g'] || endswith_one filename ['J', 'P', 'G']

/-- ASCII lower-casing of one character, used to state the spec's
case-insensitive comparison. -/
def lowerChar (c : Char) : Char :=
  if 'A' ≤ c && c ≤ 'Z' then Char.ofNat (c.toNat + 32) else c

/-- The filter the spec describes, from its words: a name is selected iff
it ends, compared case-insensitively, with `jpg`. -/
def selects_file_ci (filename : List Char) : Bool :=
  endswith_one (filename.map lowerChar) ['j', 'p', 'g']

theorem endswith_one_iff (s suf : List Char) :
    endswith_one s suf = true ↔ suf <:+ s := by
  unfold endswith_one
  rw [Bool.and_eq_true, decide_eq_true_iff, beq_iff_eq]
  constructor
  · rintro ⟨hlen, hdrop⟩
    exact List.suffix_iff_eq_drop.mpr hdrop.symm
  · intro h
    exact ⟨h.length_le, (List.suffix_iff_eq_drop.mp h).symm⟩

/-- C8 counterexample: `a.Jpg` ends case-insensitively with `jpg`, yet the
source's filter does not select it — only the exact casings `jpg` and
`JPG` are accepted. -/
theorem mixed_case_jpg_not_selected :
    selects_file ['a', '.', 'J', 'p', 'g'] = false ∧
    selects_file_ci ['a', '.', 'J', 'p', 'g'] = true := by decide

/-- C8 amended: a file in the target directory is selected for processing
iff its name ends with exactly `jpg` or exactly `JPG`; the other casings
of the three letters are not selected. -/
theorem selects_iff_exact_suffix (filename : List Char) :
    selects_file filename = true ↔
      ['j', 'p', 'g'] <:+ filename ∨ ['J', 'P', 'G'] <:+ filename := by
  unfold selects_file
  rw [Bool.or_eq_true, endswith_one_iff, endswith_one_iff]

end MaskAi
